import Mathlib

/-!
Shallow embedding of the health-metric core of `src/project_rash.py`
(HealthFit Pro). Python floats are modelled as exact rationals `ℚ`;
Python strings as Lean `String` (all category matching is ASCII, where
per-character lowercasing agrees with Python's `str.lower`). The unguarded float
division in `calculate_bmi` is modelled by an `Option` result: `none`
stands for the `ZeroDivisionError` the Python code raises when the
divisor is zero.
-/

namespace ProjectRash

/-- Models Python's `str.lower()` for the ASCII strings the program compares:
each character is lowercased independently. Defined by structural recursion
over the character list so that concrete instances reduce in the kernel. -/
def str_lower (s : String) : String := ⟨s.data.map Char.toLower⟩

/-- Embeds `calculate_calories_burned` (src/project_rash.py lines 30-33):
`base_calories = age*0.2 + weight*0.5 + height*0.1`,
`timing_multiplier = 1 + (workout_timing/60)*0.5`, product returned. -/
def calculate_calories_burned (age weight height workout_timing : ℚ) : ℚ :=
  let base_calories := age * 0.2 + weight * 0.5 + height * 0.1
  let timing_multiplier := 1 + (workout_timing / 60) * 0.5
  base_calories * timing_multiplier

/-- Embeds `calculate_bmi` (src/project_rash.py lines 35-37):
`height_m = height / 100; return weight / (height_m ** 2)`.
The Python division raises `ZeroDivisionError` when `height_m ** 2 == 0`;
that fault is modelled as `none`. -/
def calculate_bmi (weight height : ℚ) : Option ℚ :=
  let height_m := height / 100
  if height_m ^ 2 = 0 then none else some (weight / height_m ^ 2)

/-- Embeds `get_bmi_category` (src/project_rash.py lines 39-47). -/
def get_bmi_category (bmi : ℚ) : String :=
  if bmi < 18.5 then "Underweight"
  else if 18.5 ≤ bmi ∧ bmi < 25 then "Normal Weight"
  else if 25 ≤ bmi ∧ bmi < 30 then "Overweight"
  else "Obese"

/-- The `# Calorie burn suggestions` block of `generate_suggestions`
(src/project_rash.py lines 52-56). -/
def calorie_suggestions (calories_burned : ℚ) : List String :=
  if calories_burned < 2000 then
    ["Reduce calorie deficit - current burn rate is below recommended minimum"]
  else if calories_burned > 3000 then
    ["Excellent calorie burn! Maintain this activity level"]
  else []

/-- The `# Workout type suggestions` block of `generate_suggestions`
(src/project_rash.py lines 58-62). -/
def workout_suggestions (bmi : ℚ) (workout_type : String) (workout_timing : ℚ) :
    List String :=
  if (str_lower workout_type = "yoga" ∨ str_lower workout_type = "pilates") ∧ bmi > 25 then
    ["Switch to cardio workouts for better results with your profile"]
  else if str_lower workout_type = "strength" ∧ workout_timing < 30 then
    ["Consider increasing strength training duration for optimal muscle growth"]
  else []

/-- The `# Diet suggestions` block of `generate_suggestions`
(src/project_rash.py lines 64-68): two independent `if`s. -/
def diet_suggestions (workout_type diet_type : String) (workout_timing : ℚ) :
    List String :=
  (if str_lower workout_type = "strength" ∨ str_lower workout_type = "hiit" then
    ["Increase protein intake by 20% based on workout type"]
  else []) ++
  (if str_lower diet_type = "vegan" ∧ workout_timing > 45 then
    ["Consider supplementing with plant-based protein sources"]
  else [])

/-- The `# BMI-based suggestions` block of `generate_suggestions`
(src/project_rash.py lines 70-77), dispatching on `get_bmi_category bmi`. -/
def bmi_suggestions (bmi : ℚ) : List String :=
  let bmi_category := get_bmi_category bmi
  if bmi_category = "Underweight" then
    ["Focus on nutrient-dense foods and strength training to build healthy mass"]
  else if bmi_category = "Overweight" then
    ["Combine cardio exercise with balanced nutrition for sustainable weight loss"]
  else if bmi_category = "Obese" then
    ["Consult healthcare provider for personalized weight management plan"]
  else []

/-- The value of the local `suggestions` list of `generate_suggestions`
(src/project_rash.py lines 50-77) just before the empty-list fallback check:
the four rule blocks appended in source order. -/
def rule_suggestions (calories_burned bmi : ℚ) (workout_type diet_type : String)
    (workout_timing : ℚ) : List String :=
  calorie_suggestions calories_burned ++
  workout_suggestions bmi workout_type workout_timing ++
  diet_suggestions workout_type diet_type workout_timing ++
  bmi_suggestions bmi

/-- Embeds `generate_suggestions` (src/project_rash.py lines 49-82): the four
rule blocks append to `suggestions` in source order; if nothing fired, the
single default message is appended instead. -/
def generate_suggestions (calories_burned bmi : ℚ) (workout_type diet_type : String)
    (workout_timing : ℚ) : List String :=
  let suggestions :=
    rule_suggestions calories_burned bmi workout_type diet_type workout_timing
  if suggestions = [] then ["Maintain your current healthy lifestyle habits!"]
  else suggestions

/-- Disjunction of every rule condition of `generate_suggestions`
(src/project_rash.py lines 53-77): exactly the guards under which some rule
block appends a suggestion. -/
def anyRuleFires (calories_burned bmi : ℚ) (workout_type diet_type : String)
    (workout_timing : ℚ) : Prop :=
  calories_burned < 2000 ∨ calories_burned > 3000 ∨
  ((str_lower workout_type = "yoga" ∨ str_lower workout_type = "pilates") ∧ bmi > 25) ∨
  (str_lower workout_type = "strength" ∧ workout_timing < 30) ∨
  (str_lower workout_type = "strength" ∨ str_lower workout_type = "hiit") ∨
  (str_lower diet_type = "vegan" ∧ workout_timing > 45) ∨
  get_bmi_category bmi = "Underweight" ∨
  get_bmi_category bmi = "Overweight" ∨
  get_bmi_category bmi = "Obese"

instance (c b : ℚ) (w d : String) (t : ℚ) : Decidable (anyRuleFires c b w d t) := by
  unfold anyRuleFires; infer_instance

/-! ### Helper lemmas -/

lemma rule_suggestions_eq_nil_iff (c b : ℚ) (w d : String) (t : ℚ) :
    rule_suggestions c b w d t = [] ↔ ¬ anyRuleFires c b w d t := by
  simp only [rule_suggestions, calorie_suggestions, workout_suggestions, diet_suggestions,
    bmi_suggestions, anyRuleFires]
  split_ifs <;> simp_all

lemma default_not_mem_rule_suggestions (c b : ℚ) (w d : String) (t : ℚ) :
    "Maintain your current healthy lifestyle habits!" ∉ rule_suggestions c b w d t := by
  simp only [rule_suggestions, calorie_suggestions, workout_suggestions, diet_suggestions,
    bmi_suggestions]
  split_ifs <;> simp

lemma mem_generate_suggestions_of_ne_default (c b : ℚ) (w d : String) (t : ℚ) (s : String)
    (hne : s ≠ "Maintain your current healthy lifestyle habits!") :
    s ∈ generate_suggestions c b w d t ↔ s ∈ rule_suggestions c b w d t := by
  simp only [generate_suggestions]
  split_ifs with h
  · simp [h, hne]
  · exact Iff.rfl

lemma protein_mem_rule_suggestions (c b : ℚ) (w d : String) (t : ℚ) :
    "Increase protein intake by 20% based on workout type" ∈ rule_suggestions c b w d t ↔
      (str_lower w = "strength" ∨ str_lower w = "hiit") := by
  simp only [rule_suggestions, calorie_suggestions, workout_suggestions, diet_suggestions,
    bmi_suggestions, List.mem_append]
  split_ifs <;> simp_all

lemma calorie_suggestions_length (c : ℚ) : (calorie_suggestions c).length ≤ 1 := by
  unfold calorie_suggestions
  split_ifs <;> simp

lemma bmi_suggestions_length (b : ℚ) : (bmi_suggestions b).length ≤ 1 := by
  simp only [bmi_suggestions]
  split_ifs <;> simp

lemma yoga_strength_incompat (w : String)
    (h1 : str_lower w = "yoga" ∨ str_lower w = "pilates")
    (h2 : str_lower w = "strength" ∨ str_lower w = "hiit") : False := by
  rcases h1 with h | h <;> rcases h2 with h' | h' <;> simp [h] at h'

lemma workout_diet_suggestions_length (b : ℚ) (w d : String) (t : ℚ) :
    (workout_suggestions b w t).length + (diet_suggestions w d t).length ≤ 2 := by
  unfold workout_suggestions diet_suggestions
  split_ifs <;> simp_all <;> try linarith
  all_goals
    rename_i hA hC _
    exact yoga_strength_incompat w hA.1 hC

/-! ### Claim theorems -/

/-- C1: for calories_burned 1500, bmi 26, workout_type "Yoga", diet_type
"Balanced", duration 20, `generate_suggestions` returns exactly three strings
in rule-evaluation order: the low-burn warning, the switch-to-cardio advice,
and the Overweight cardio-plus-diet advice, with no other message and no
default fallback entry. -/
theorem yoga_lowburn_overweight_suggestions :
    generate_suggestions 1500 26 "Yoga" "Balanced" 20 =
      ["Reduce calorie deficit - current burn rate is below recommended minimum",
       "Switch to cardio workouts for better results with your profile",
       "Combine cardio exercise with balanced nutrition for sustainable weight loss"] := by
  have hw : str_lower "Yoga" = "yoga" := by decide
  have hd : str_lower "Balanced" = "balanced" := by decide
  norm_num [generate_suggestions, rule_suggestions, calorie_suggestions, workout_suggestions,
    diet_suggestions, bmi_suggestions, get_bmi_category, hw, hd]
  simp

/-- C2: `get_bmi_category` returns "Underweight" iff bmi < 18.5,
"Normal Weight" iff 18.5 ≤ bmi < 25, "Overweight" iff 25 ≤ bmi < 30, and
"Obese" iff bmi ≥ 30: all boundaries half-open and lower-inclusive (so 18.49
maps to Underweight, 18.5 and 24.99 to Normal Weight, 25.0 and 29.99 to
Overweight, and 30.0 to Obese). -/
theorem get_bmi_category_partition (b : ℚ) :
    (get_bmi_category b = "Underweight" ↔ b < 18.5) ∧
    (get_bmi_category b = "Normal Weight" ↔ 18.5 ≤ b ∧ b < 25) ∧
    (get_bmi_category b = "Overweight" ↔ 25 ≤ b ∧ b < 30) ∧
    (get_bmi_category b = "Obese" ↔ 30 ≤ b) := by
  unfold get_bmi_category
  split_ifs with h1 h2 h3 <;>
    refine ⟨?_, ?_, ?_, ?_⟩ <;> simp_all <;> try (intros; linarith)

/-- C3: `calculate_calories_burned age weight height duration` equals
`(age*0.2 + weight*0.5 + height*0.1) * (1 + (duration/60)*0.5)` for all
inputs; in particular at (25, 70, 170, 45) it equals 78.375. -/
theorem calculate_calories_burned_formula :
    (∀ age weight height duration : ℚ,
      calculate_calories_burned age weight height duration =
        (age * 0.2 + weight * 0.5 + height * 0.1) * (1 + duration / 60 * 0.5)) ∧
    calculate_calories_burned 25 70 170 45 = 78.375 := by
  constructor
  · intro age weight height duration
    rfl
  · norm_num [calculate_calories_burned]

/-- C4: for every weight w > 0 and height h > 0, `calculate_bmi w h`
succeeds and equals w / (h/100)^2 exactly. -/
theorem calculate_bmi_formula (w h : ℚ) (_hw : 0 < w) (hh : 0 < h) :
    calculate_bmi w h = some (w / (h / 100) ^ 2) := by
  unfold calculate_bmi
  rw [if_neg]
  exact pow_ne_zero 2 (div_ne_zero (ne_of_gt hh) (by norm_num))

/-- Witness for C4 at weight 70, height 170. -/
theorem calculate_bmi_formula_witness :
    (0 : ℚ) < 70 ∧ (0 : ℚ) < 170 ∧
    calculate_bmi 70 170 = some (70 / (170 / 100) ^ 2) :=
  ⟨by decide, by decide, calculate_bmi_formula 70 170 (by decide) (by decide)⟩

/-- C5: `calculate_bmi` hits the divide-by-zero computation fault (modelled
as `none`) exactly when height = 0; for any nonzero height it returns a
value. The other in-scope functions are total by construction in this
embedding, mirroring that they raise on no input. -/
theorem calculate_bmi_none_iff (w h : ℚ) : calculate_bmi w h = none ↔ h = 0 := by
  have key : ((h / 100 : ℚ) ^ 2 = 0) ↔ h = 0 := by
    rw [pow_eq_zero_iff (two_ne_zero), div_eq_zero_iff]
    norm_num
  simp only [calculate_bmi]
  split_ifs with hz
  · simpa using key.mp hz
  · simpa using fun hzero => hz (key.mpr hzero)

/-- C6: when no rule condition holds, `generate_suggestions` returns exactly
the one-element default list; whenever at least one rule fires, the default
message does not appear in the output. -/
theorem generate_suggestions_default_iff (c b : ℚ) (w d : String) (t : ℚ) :
    (¬ anyRuleFires c b w d t →
      generate_suggestions c b w d t = ["Maintain your current healthy lifestyle habits!"]) ∧
    (anyRuleFires c b w d t →
      "Maintain your current healthy lifestyle habits!" ∉ generate_suggestions c b w d t) := by
  constructor
  · intro hno
    simp only [generate_suggestions]
    rw [if_pos ((rule_suggestions_eq_nil_iff c b w d t).mpr hno)]
  · intro hyes
    simp only [generate_suggestions]
    rw [if_neg (fun hnil => ((rule_suggestions_eq_nil_iff c b w d t).mp hnil) hyes)]
    exact default_not_mem_rule_suggestions c b w d t

/-- Witness for C6: at (2500, 22, "Swimming", "Balanced", 40) no rule fires
and the output is exactly the default list; at (1500, 26, "Yoga",
"Balanced", 20) a rule fires and the default message is absent. -/
theorem generate_suggestions_default_iff_witness :
    (¬ anyRuleFires 2500 22 "Swimming" "Balanced" 40 ∧
      generate_suggestions 2500 22 "Swimming" "Balanced" 40 =
        ["Maintain your current healthy lifestyle habits!"]) ∧
    (anyRuleFires 1500 26 "Yoga" "Balanced" 20 ∧
      "Maintain your current healthy lifestyle habits!" ∉
        generate_suggestions 1500 26 "Yoga" "Balanced" 20) := by
  have hsw : str_lower "Swimming" = "swimming" := by decide
  have hba : str_lower "Balanced" = "balanced" := by decide
  have hno : ¬ anyRuleFires 2500 22 "Swimming" "Balanced" 40 := by
    norm_num [anyRuleFires, get_bmi_category, hsw, hba]
    decide
  have hyes : anyRuleFires 1500 26 "Yoga" "Balanced" 20 := by
    unfold anyRuleFires
    exact Or.inl (by decide)
  exact ⟨⟨hno, (generate_suggestions_default_iff 2500 22 "Swimming" "Balanced" 40).1 hno⟩,
         ⟨hyes, (generate_suggestions_default_iff 1500 26 "Yoga" "Balanced" 20).2 hyes⟩⟩

/-- C7: the protein-increase advice appears in the output iff workout_type
lowercases to "strength" or "hiit" (independently of rule 2); moreover with
workout_type lowercasing to "strength" and duration < 30, the output contains
both the extend-duration advice and the protein-increase advice. -/
theorem protein_rule (c b t : ℚ) (w d : String) :
    ("Increase protein intake by 20% based on workout type" ∈
        generate_suggestions c b w d t ↔
      (str_lower w = "strength" ∨ str_lower w = "hiit")) ∧
    (str_lower w = "strength" → t < 30 →
      "Consider increasing strength training duration for optimal muscle growth" ∈
          generate_suggestions c b w d t ∧
      "Increase protein intake by 20% based on workout type" ∈
          generate_suggestions c b w d t) := by
  have hmem := mem_generate_suggestions_of_ne_default c b w d t
    "Increase protein intake by 20% based on workout type" (by simp)
  constructor
  · exact hmem.trans (protein_mem_rule_suggestions c b w d t)
  · intro hw ht
    constructor
    · rw [mem_generate_suggestions_of_ne_default c b w d t _ (by simp)]
      have hwork : workout_suggestions b w t =
          ["Consider increasing strength training duration for optimal muscle growth"] := by
        unfold workout_suggestions
        rw [if_neg (by rw [hw]; simp), if_pos ⟨hw, ht⟩]
      simp [rule_suggestions, hwork]
    · rw [hmem, protein_mem_rule_suggestions c b w d t]
      exact Or.inl hw

/-- Witness for C7 at (2500, 22, "Strength", "Balanced", 20). -/
theorem protein_rule_witness :
    str_lower "Strength" = "strength" ∧ (20 : ℚ) < 30 ∧
    ("Increase protein intake by 20% based on workout type" ∈
        generate_suggestions 2500 22 "Strength" "Balanced" 20 ↔
      (str_lower "Strength" = "strength" ∨ str_lower "Strength" = "hiit")) ∧
    ("Consider increasing strength training duration for optimal muscle growth" ∈
        generate_suggestions 2500 22 "Strength" "Balanced" 20 ∧
     "Increase protein intake by 20% based on workout type" ∈
        generate_suggestions 2500 22 "Strength" "Balanced" 20) :=
  ⟨by decide, by decide,
   (protein_rule 2500 22 20 "Strength" "Balanced").1,
   (protein_rule 2500 22 20 "Strength" "Balanced").2 (by decide) (by decide)⟩

/-- C8: `generate_suggestions` depends on workout_type and diet_type only
through their lowercase forms: replacing either string by one with the same
lowercase form leaves the output unchanged. -/
theorem generate_suggestions_case_insensitive (c b t : ℚ) (w w' d d' : String)
    (hw : str_lower w = str_lower w') (hd : str_lower d = str_lower d') :
    generate_suggestions c b w d t = generate_suggestions c b w' d' t := by
  simp only [generate_suggestions, rule_suggestions, workout_suggestions, diet_suggestions,
    hw, hd]

/-- Witness for C8: "Yoga"/"YOGA" and "Vegan"/"vegan" have the same lowercase
forms and give identical outputs. -/
theorem generate_suggestions_case_insensitive_witness :
    str_lower "Yoga" = str_lower "YOGA" ∧ str_lower "Vegan" = str_lower "vegan" ∧
    generate_suggestions 1500 26 "Yoga" "Vegan" 50 =
      generate_suggestions 1500 26 "YOGA" "vegan" 50 :=
  ⟨by decide, by decide,
   generate_suggestions_case_insensitive 1500 26 50 "Yoga" "YOGA" "Vegan" "vegan"
     (by decide) (by decide)⟩

/-- C9: each in-scope function is a pure function of its arguments: two
calls on the same input give identical results. In this embedding every
function is a plain mathematical function with no ambient state, which is
faithful because the Python source reads no global or mutable state in
these four functions. -/
theorem core_functions_deterministic (age weight height t c b : ℚ) (w d : String) :
    calculate_calories_burned age weight height t =
        calculate_calories_burned age weight height t ∧
    calculate_bmi weight height = calculate_bmi weight height ∧
    get_bmi_category b = get_bmi_category b ∧
    generate_suggestions c b w d t = generate_suggestions c b w d t :=
  ⟨rfl, rfl, rfl, rfl⟩

/-- C10: `generate_suggestions` always returns between 1 and 4 entries: the
fallback guarantees nonemptiness, and the five rules can never all fire at
once (yoga/pilates excludes strength/hiit, and strength with duration < 30
excludes vegan with duration > 45). -/
theorem generate_suggestions_length_bounds (c b : ℚ) (w d : String) (t : ℚ) :
    1 ≤ (generate_suggestions c b w d t).length ∧
    (generate_suggestions c b w d t).length ≤ 4 := by
  simp only [generate_suggestions]
  split_ifs with h
  · simp
  · constructor
    · have hpos : 0 < (rule_suggestions c b w d t).length := List.length_pos.mpr h
      omega
    · have h1 := calorie_suggestions_length c
      have h2 := workout_diet_suggestions_length b w d t
      have h3 := bmi_suggestions_length b
      simp only [rule_suggestions, List.length_append] at *
      omega

end ProjectRash
